import Mathlib

/-!
Shallow embedding of the davix standalone curl request engine
(src/curl/StandaloneCurlRequest.cpp) and the Uri wrapper (src/davixuri.cpp).

Machine times are modelled as Nat (monotonic clock ticks), response body bytes
as List Nat. External collaborators (the curl transport, the session factory,
the neon URI parsing routine) are passed in as explicit parameters, so every
definition is executable.
-/

/-- Error taxonomy used by the engine (subset of Davix StatusCode that the
embedded code mentions). -/
inductive StatusCode where
  | OK
  | AlreadyRunning
  | OperationTimeout
  | InvalidArgument
  | UriParsingError
deriving DecidableEq, Repr

/-- A Davix Status value: an error code plus a diagnostic message.
A default-constructed Status() is success with an empty message. -/
structure Status where
  code : StatusCode
  msg : String
deriving DecidableEq, Repr

/-- Status(): the default success status. -/
def Status.okS : Status := ⟨StatusCode.OK, ""⟩

/-- Status::ok(). -/
def Status.ok (s : Status) : Bool := s.code == StatusCode.OK

/-- RequestState from StandaloneCurlRequest.hpp. -/
inductive RequestState where
  | kNotStarted
  | kStarted
  | kFinished
deriving DecidableEq, Repr

/-- The observable face of a CurlSession: the numeric response code that
curl_easy_getinfo(CURLINFO_RESPONSE_CODE) reports on its handle (0 when the
transport cannot determine one). -/
structure CurlSession where
  responseCode : Int
deriving DecidableEq, Repr

/-- State of one StandaloneCurlRequest. Fields mirror the C++ members:
_state, _deadline (none = invalid TimePoint, never expires), the operation
timeout seconds taken from _params, _session (none = null pointer),
_content_provider (presence of the borrowed pointer), _response_buffer,
_response_headers and _received_headers. rewind_count instruments how many
times rewind() has been invoked on the attached content provider. -/
structure StandaloneCurlRequest where
  state : RequestState
  deadline : Option Nat
  operation_timeout_sec : Nat
  session : Option CurlSession
  content_provider : Bool
  rewind_count : Nat
  response_buffer : List Nat
  response_headers : List (String × String)
  received_headers : Bool
deriving DecidableEq, Repr

/-- StandaloneCurlRequest::checkTimeout — compares the deadline against the
monotonic clock (passed here as the parameter now); an invalid deadline never
expires. -/
def checkTimeout (req : StandaloneCurlRequest) (now : Nat) : Status :=
  match req.deadline with
  | some d =>
    if d < now then
      ⟨StatusCode.OperationTimeout,
        "timeout of " ++ toString req.operation_timeout_sec ++ "s"⟩
    else Status.okS
  | none => Status.okS

/-- Removes leading and trailing whitespace (spaces, tabs, CR, LF) from a
character list. -/
def trimChars (l : List Char) : List Char :=
  ((l.dropWhile Char.isWhitespace).reverse.dropWhile Char.isWhitespace).reverse

/-- Modelled from the spec: class HeaderlineParser, whose source file is not in
this snapshot. Splits one raw header line at the first colon; the name is the
substring before the colon with surrounding whitespace trimmed; the value is
the substring after the colon with surrounding whitespace and the line
terminator trimmed; a line with no colon yields the whole trimmed line as name
and an empty value. -/
def HeaderlineParser.parse (line : String) : String × String :=
  let cs := line.data
  let name := cs.takeWhile (fun c => c ≠ ':')
  match cs.dropWhile (fun c => c ≠ ':') with
  | [] => (⟨trimChars cs⟩, "")
  | _ :: value => (⟨trimChars name⟩, ⟨trimChars value⟩)

/-- StandaloneCurlRequest::feedResponseHeader — the bare CRLF line only sets
the received-headers flag; every other line is run through the header line
parser and the resulting pair appended to the response header sequence. -/
def feedResponseHeader (req : StandaloneCurlRequest) (header : String) :
    StandaloneCurlRequest :=
  if header = "\r\n" then { req with received_headers := true }
  else { req with response_headers :=
          req.response_headers ++ [HeaderlineParser.parse header] }

/-- Modelled from the spec: ResponseBuffer::feed (class ResponseBuffer, source
not in this snapshot) appends the incoming bytes at the tail of the FIFO
buffer. -/
def ResponseBuffer.feed (buf : List Nat) (bytes : List Nat) : List Nat :=
  buf ++ bytes

/-- Modelled from the spec: ResponseBuffer::consume removes and returns up to
maxSize bytes from the head; first component is the removed bytes, second the
remaining buffer. -/
def ResponseBuffer.consume (buf : List Nat) (maxSize : Nat) :
    List Nat × List Nat :=
  (buf.take maxSize, buf.drop maxSize)

/-- StandaloneCurlRequest::startRequest. The session factory outcome (the
session pointer it assigns and the status it fills) and the data the transport
drive loop delivers to the two callbacks (raw header lines, body chunks) are
passed as parameters. Returns the status and the updated request. -/
def startRequest (req : StandaloneCurlRequest) (now : Nat)
    (factory : Option CurlSession × Status)
    (headerLines : List String) (bodyChunks : List (List Nat)) :
    Status × StandaloneCurlRequest :=
  if req.state ≠ RequestState.kNotStarted then
    (Status.okS, req)
  else
    let st := checkTimeout req now
    if st.ok = false then (st, req)
    else
      let req1 := { req with session := factory.1 }
      if factory.2.ok = false then (factory.2, req1)
      else
        let req2 :=
          if req1.content_provider then
            { req1 with rewind_count := req1.rewind_count + 1 }
          else req1
        let req3 := headerLines.foldl feedResponseHeader req2
        let req4 := { req3 with response_buffer :=
                       bodyChunks.foldl ResponseBuffer.feed req3.response_buffer }
        (Status.okS, { req4 with state := RequestState.kStarted })

/-- Result of one readBlock call: the returned count, the bytes written into
the caller buffer, the status out-parameter after the call, and the updated
request. -/
structure ReadResult where
  ret : Int
  data : List Nat
  st : Status
  req : StandaloneCurlRequest
deriving DecidableEq, Repr

/-- StandaloneCurlRequest::readBlock. stIn is the value the caller status
out-parameter holds on entry (the source leaves it untouched on the
max_size = 0 path). -/
def readBlock (req : StandaloneCurlRequest) (max_size : Nat) (stIn : Status)
    (now : Nat) : ReadResult :=
  match req.session with
  | none =>
    ⟨-1, [], ⟨StatusCode.AlreadyRunning, "Request has not been started yet"⟩, req⟩
  | some _ =>
    if max_size = 0 then ⟨0, [], stIn, req⟩
    else
      let st := checkTimeout req now
      if st.ok = false then ⟨-1, [], st, req⟩
      else
        let r := ResponseBuffer.consume req.response_buffer max_size
        ⟨(r.1.length : Int), r.1, Status.okS,
          { req with response_buffer := r.2 }⟩

/-- StandaloneCurlRequest::endRequest — sets the state to kFinished and
returns success; it touches nothing else. -/
def endRequest (req : StandaloneCurlRequest) : Status × StandaloneCurlRequest :=
  (Status.okS, { req with state := RequestState.kFinished })

/-- StandaloneCurlRequest::getState. -/
def getState (req : StandaloneCurlRequest) : RequestState := req.state

/-- StandaloneCurlRequest::getStatusCode. The source unconditionally
dereferences the _session handle; with no session that is a null dereference,
modelled as none. With a session it reports the response code of the curl
handle. -/
def getStatusCode (req : StandaloneCurlRequest) : Option Int :=
  match req.session with
  | none => none
  | some s => some s.responseCode

/-- StandaloneCurlRequest::getAnswerHeader — first exact-name match in the
accumulated response header sequence. -/
def getAnswerHeader (req : StandaloneCurlRequest) (header_name : String) :
    Option String :=
  (req.response_headers.find? (fun p => p.1 == header_name)).map Prod.snd

/-- Lowercases one ASCII character, as the C tolower routine does. -/
def asciiLower (c : Char) : Char :=
  if 65 ≤ c.toNat && c.toNat ≤ 90 then Char.ofNat (c.toNat + 32) else c

/-- strcasecmp(a, b) == 0: ASCII case-insensitive string equality. -/
def strCaseEq (a b : String) : Bool :=
  a.data.map asciiLower == b.data.map asciiLower

/-- The fields the neon routine ne_uri_parse fills on success: scheme, host
and path may be null, port is 0 when absent, query is optional. A whole-parse
failure (nonzero return) is modelled as none at the call site. -/
structure NeUri where
  scheme : Option String
  host : Option String
  path : Option String
  port : Nat
  query : Option String
deriving DecidableEq, Repr

/-- struct UriPrivate from src/davixuri.cpp. -/
structure UriPrivate where
  code : StatusCode
  port : Nat
  proto : String
  path : String
  host : String
  query : String
  query_and_path : String
deriving DecidableEq, Repr

/-- The freshly constructed UriPrivate: code UriParsingError, zeroed ne_uri. -/
def UriPrivate.init : UriPrivate :=
  ⟨StatusCode.UriParsingError, 0, "", "", "", "", ""⟩

/-- UriPrivate::parsing, with the external ne_uri_parse outcome passed in:
none models a nonzero parse return. On success the http/https zero-port fixes
run in order, a still-zero port aborts, otherwise the code becomes OK and the
string fields are filled. -/
def UriPrivate.parsing (pr : Option NeUri) : UriPrivate :=
  match pr with
  | none => UriPrivate.init
  | some u =>
    match u.scheme, u.path, u.host with
    | some scheme, some path, some host =>
      let port1 := if u.port = 0 && strCaseEq scheme "http" then 80 else u.port
      let port2 := if port1 = 0 && strCaseEq scheme "https" then 443 else port1
      if port2 = 0 then { UriPrivate.init with port := port2 }
      else
        { code := StatusCode.OK, port := port2, proto := scheme,
          path := path, host := host,
          query := (match u.query with | some q => q | none => ""),
          query_and_path := (match u.query with
            | some q => path ++ "?" ++ q
            | none => path) }
    | _, _, _ => { UriPrivate.init with port := u.port }

/-- class Uri: the original input string plus the parsed private part. -/
structure Uri where
  uri_string : String
  d_ptr : UriPrivate
deriving DecidableEq, Repr

/-- Uri::Uri(const std::string) — stores the input string and parses it; the
external parse outcome is a parameter. -/
def Uri.fromString (pr : Option NeUri) (s : String) : Uri :=
  ⟨s, UriPrivate.parsing pr⟩

/-- Uri::getPort. -/
def Uri.getPort (u : Uri) : Int :=
  if u.d_ptr.code ≠ StatusCode.OK then -1 else (u.d_ptr.port : Int)

/-- Uri::getHost. -/
def Uri.getHost (u : Uri) : String :=
  if u.d_ptr.code ≠ StatusCode.OK then "" else u.d_ptr.host

/-- Uri::getString — always the original input string. -/
def Uri.getString (u : Uri) : String := u.uri_string

/-- Uri::getProtocol. -/
def Uri.getProtocol (u : Uri) : String :=
  if u.d_ptr.code ≠ StatusCode.OK then "" else u.d_ptr.proto

/-- Uri::getPath. -/
def Uri.getPath (u : Uri) : String :=
  if u.d_ptr.code ≠ StatusCode.OK then "" else u.d_ptr.path

/-- Uri::getPathAndQuery. -/
def Uri.getPathAndQuery (u : Uri) : String :=
  if u.d_ptr.code ≠ StatusCode.OK then "" else u.d_ptr.query_and_path

/-- Uri::getQuery. -/
def Uri.getQuery (u : Uri) : String :=
  if u.d_ptr.code ≠ StatusCode.OK then "" else u.d_ptr.query

/-- Uri::getStatus. -/
def Uri.getStatus (u : Uri) : StatusCode := u.d_ptr.code

/-- Uri::operator= — copies only the private parsed part d_ptr; the
uri_string member of the assigned-to Uri is left unchanged. -/
def Uri.assign (dst src : Uri) : Uri := { dst with d_ptr := src.d_ptr }

/-- StandaloneCurlRequest::obtainRedirectedLocation. The neon parse of the
redirect target is a parameter, and out0 is the value the caller's
out-parameter holds on entry. Returns the status and the out-parameter after
the call: on success the source does out = Uri(header value), which goes
through Uri::operator= and so copies only the parsed part into out. -/
def obtainRedirectedLocation (parse : String → Option NeUri)
    (req : StandaloneCurlRequest) (out0 : Uri) : Status × Uri :=
  match req.session with
  | none =>
    (⟨StatusCode.InvalidArgument,
       "Request not active, impossible to obtain redirected location"⟩, out0)
  | some _ =>
    match req.response_headers.find? (fun p => strCaseEq "location" p.1) with
    | some p => (Status.okS, Uri.assign out0 (Uri.fromString (parse p.2) p.2))
    | none =>
      (⟨StatusCode.InvalidArgument,
         "Could not find Location header in answer headers"⟩, out0)

/-- Successive consume calls on the sink with the given size partition,
concatenating the removed bytes. -/
def drainWith (buf : List Nat) (sizes : List Nat) : List Nat :=
  match sizes with
  | [] => []
  | s :: rest =>
    let r := ResponseBuffer.consume buf s
    r.1 ++ drainWith r.2 rest

/-- Feeding a list of transport chunks into an empty sink. -/
def feedAll (chunks : List (List Nat)) : List Nat :=
  chunks.foldl ResponseBuffer.feed []

/-- Successive readBlock calls with the given size partition, concatenating
the bytes each call hands to the caller. -/
def readBlocks (req : StandaloneCurlRequest) (now : Nat) (sizes : List Nat) :
    List Nat :=
  match sizes with
  | [] => []
  | s :: rest =>
    let r := readBlock req s Status.okS now
    r.data ++ readBlocks r.req now rest

/-- A concrete session, as the factory would hand out after a 200 response. -/
def sampleSession : CurlSession := ⟨200⟩

/-- A concrete already-started request holding a session and two buffered
body bytes. -/
def sampleStarted : StandaloneCurlRequest :=
  { state := RequestState.kStarted, deadline := none, operation_timeout_sec := 5,
    session := some sampleSession, content_provider := false, rewind_count := 0,
    response_buffer := [104, 105], response_headers := [], received_headers := false }

/-- A concrete fresh request: never started, no session, deadline at tick 10. -/
def sampleFresh : StandaloneCurlRequest :=
  { state := RequestState.kNotStarted, deadline := some 10, operation_timeout_sec := 5,
    session := none, content_provider := true, rewind_count := 0,
    response_buffer := [], response_headers := [], received_headers := false }

/-- A concrete active request carrying response headers, among them a mixed
case Location header preceded by an unrelated one. -/
def sampleRedirected : StandaloneCurlRequest :=
  { state := RequestState.kStarted, deadline := some 10, operation_timeout_sec := 5,
    session := some sampleSession, content_provider := false, rewind_count := 0,
    response_buffer := [104, 105, 106], received_headers := true,
    response_headers :=
      [("Content-Type", "text/plain"), ("LoCaTiOn", "http://x/a"),
       ("Location", "http://y/b")] }

/-- A concrete Uri as a caller would pass it as the out-parameter: built
earlier from an unrelated string. -/
def sampleOutUri : Uri := ⟨"http://orig/", UriPrivate.init⟩

/-! Helper lemmas. -/

/-- Splitting a take of a sum into a take and a take of the drop. -/
theorem take_add_split {α : Type} (m n : Nat) :
    ∀ l : List α, l.take (m + n) = l.take m ++ (l.drop m).take n := by
  induction m with
  | zero => intro l; simp
  | succ m ih =>
    intro l
    cases l with
    | nil => simp
    | cons a l =>
      simp only [List.drop_succ_cons, List.take_succ_cons, Nat.succ_add,
        List.cons_append, List.cons.injEq, true_and]
      exact ih l

/-- drainWith removes exactly the first (sum of sizes) bytes, in order. -/
theorem drainWith_eq_take (sizes : List Nat) :
    ∀ buf : List Nat, drainWith buf sizes = buf.take sizes.sum := by
  induction sizes with
  | nil => intro buf; simp [drainWith]
  | cons s rest ih =>
    intro buf
    simp only [drainWith, ResponseBuffer.consume, List.sum_cons]
    rw [ih (buf.drop s), take_add_split]

/-- Feeding chunks one by one accumulates their concatenation. -/
theorem foldl_feed (chunks : List (List Nat)) :
    ∀ buf : List Nat, chunks.foldl ResponseBuffer.feed buf = buf ++ chunks.flatten := by
  induction chunks with
  | nil => intro buf; simp [List.foldl]
  | cons c rest ih =>
    intro buf
    simp only [List.foldl, List.flatten_cons, ResponseBuffer.feed]
    rw [ih (buf ++ c), List.append_assoc]

/-- feedAll yields the concatenation of the fed chunks. -/
theorem feedAll_eq_flatten (chunks : List (List Nat)) :
    feedAll chunks = chunks.flatten := by
  simpa using foldl_feed chunks []

/-- readBlock on a request with a session, a nonzero max_size and a passing
deadline guard delivers the head of the buffer and drops it from the sink. -/
theorem readBlock_some (req : StandaloneCurlRequest) (sess : CurlSession)
    (stIn : Status) (now s : Nat) (hs : req.session = some sess) (h0 : s ≠ 0)
    (hct : checkTimeout req now = Status.okS) :
    readBlock req s stIn now =
      ⟨((req.response_buffer.take s).length : Int), req.response_buffer.take s,
        Status.okS, { req with response_buffer := req.response_buffer.drop s }⟩ := by
  simp [readBlock, hs, h0, hct, Status.ok, Status.okS, ResponseBuffer.consume]

/-- readBlock on a request with a session and max_size 0 returns 0 at once
and leaves both the status out-parameter and the request untouched. -/
theorem readBlock_zero (req : StandaloneCurlRequest) (sess : CurlSession)
    (stIn : Status) (now : Nat) (hs : req.session = some sess) :
    readBlock req 0 stIn now = ⟨0, [], stIn, req⟩ := by
  simp [readBlock, hs]

/-- With a session present and no deadline set, successive readBlock calls
drain the first (sum of sizes) bytes of the buffer. -/
theorem readBlocks_eq_take (sizes : List Nat) :
    ∀ (req : StandaloneCurlRequest) (sess : CurlSession) (now : Nat),
      req.session = some sess → req.deadline = none →
      readBlocks req now sizes = req.response_buffer.take sizes.sum := by
  induction sizes with
  | nil => intro req sess now _ _; simp [readBlocks]
  | cons s rest ih =>
    intro req sess now hs hd
    by_cases h0 : s = 0
    · subst h0
      simp only [readBlocks, readBlock_zero req sess Status.okS now hs,
        List.sum_cons, Nat.zero_add, List.nil_append]
      exact ih req sess now hs hd
    · have hct : checkTimeout req now = Status.okS := by
        simp [checkTimeout, hd]
      simp only [readBlocks, readBlock_some req sess Status.okS now s hs h0 hct,
        List.sum_cons]
      rw [ih { req with response_buffer := req.response_buffer.drop s } sess now hs hd]
      rw [take_add_split]

/-! Claim theorems. -/

/-- C1: for every Request whose state is not NotStarted, a repeated call to
startRequest is a no-op returning success — whatever the clock, the factory
outcome and the transport would deliver, it acquires no session, rewinds no
content source and changes no observable state. -/
theorem c1_startRequest_idempotent (req : StandaloneCurlRequest) (now : Nat)
    (factory : Option CurlSession × Status) (headerLines : List String)
    (bodyChunks : List (List Nat)) (h : req.state ≠ RequestState.kNotStarted) :
    startRequest req now factory headerLines bodyChunks = (Status.okS, req) := by
  simp [startRequest, h]

/-- Witness for C1 at a concrete already-started request. -/
theorem c1_startRequest_idempotent_witness :
    startRequest sampleStarted 0 (some ⟨404⟩, Status.okS) ["X: y\r\n"] [[1, 2]] =
      (Status.okS, sampleStarted) :=
  c1_startRequest_idempotent sampleStarted 0 (some ⟨404⟩, Status.okS)
    ["X: y\r\n"] [[1, 2]] (by decide)

/-- C2: a Request in state NotStarted whose deadline has elapsed at
startRequest time gets OperationTimeout back, keeps state NotStarted, and
acquires no session from the factory (the request is returned unchanged). -/
theorem c2_startRequest_elapsed_deadline (req : StandaloneCurlRequest)
    (now d : Nat) (factory : Option CurlSession × Status)
    (headerLines : List String) (bodyChunks : List (List Nat))
    (hs : req.state = RequestState.kNotStarted)
    (hd : req.deadline = some d) (hlt : d < now) :
    startRequest req now factory headerLines bodyChunks =
      (⟨StatusCode.OperationTimeout,
         "timeout of " ++ toString req.operation_timeout_sec ++ "s"⟩, req) ∧
    ((startRequest req now factory headerLines bodyChunks).2).state =
      RequestState.kNotStarted ∧
    ((startRequest req now factory headerLines bodyChunks).2).session =
      req.session := by
  have hmain : startRequest req now factory headerLines bodyChunks =
      (⟨StatusCode.OperationTimeout,
         "timeout of " ++ toString req.operation_timeout_sec ++ "s"⟩, req) := by
    simp [startRequest, hs, checkTimeout, hd, hlt, Status.ok]
  exact ⟨hmain, by rw [hmain]; exact hs, by rw [hmain]⟩

/-- Witness for C2: fresh request with deadline 10 started at tick 11. -/
theorem c2_startRequest_elapsed_deadline_witness :
    startRequest sampleFresh 11 (some sampleSession, Status.okS) [] [] =
      (⟨StatusCode.OperationTimeout, "timeout of 5s"⟩, sampleFresh) :=
  (c2_startRequest_elapsed_deadline sampleFresh 11 10
    (some sampleSession, Status.okS) [] [] (by decide) (by decide) (by decide)).1

/-- C4 counterexample: endRequest does not release the session back to the
factory — on a concrete started request the session handle is still held
after endRequest returns, and the request changed in nothing but its state
field. -/
theorem c4_counterexample :
    ((endRequest sampleStarted).2).session = some sampleSession ∧
    (endRequest sampleStarted).2 =
      { sampleStarted with state := RequestState.kFinished } := by
  exact ⟨rfl, rfl⟩

/-- C4 (amended): endRequest unconditionally transitions the state to
Finished, always returns success and is idempotent; it does not release the
session, whose handle it leaves untouched (release happens only when the
request is destroyed). -/
theorem c4_endRequest (req : StandaloneCurlRequest) :
    endRequest req = (Status.okS, { req with state := RequestState.kFinished }) ∧
    endRequest (endRequest req).2 = endRequest req ∧
    ((endRequest req).2).session = req.session := by
  exact ⟨rfl, rfl, rfl⟩

/-- C6: getStatusCode on a request with no active session does not return 0 —
the source dereferences the null session handle (modelled as none) instead of
returning the documented 0. -/
theorem c6_getStatusCode_no_session : getStatusCode sampleFresh = none := rfl

/-- C3: for every byte sequence the transport delivers into the sink, in any
chunking, and every partition of read sizes covering its length, the
concatenation of the bytes returned by successive consume calls — and equally
by successive readBlock calls on a request holding those bytes — is exactly
the delivered sequence, in arrival order. -/
theorem c3_sink_round_trip (chunks : List (List Nat)) (sizes : List Nat)
    (req : StandaloneCurlRequest) (sess : CurlSession) (now : Nat)
    (hlen : (chunks.flatten).length ≤ sizes.sum)
    (hs : req.session = some sess) (hd : req.deadline = none)
    (hbuf : req.response_buffer = chunks.flatten) :
    drainWith (feedAll chunks) sizes = chunks.flatten ∧
    readBlocks req now sizes = chunks.flatten := by
  constructor
  · rw [feedAll_eq_flatten, drainWith_eq_take, List.take_of_length_le hlen]
  · rw [readBlocks_eq_take sizes req sess now hs hd, hbuf,
      List.take_of_length_le hlen]

/-- Witness for C3: two chunks, drained with the partition [1, 5]. -/
theorem c3_sink_round_trip_witness :
    drainWith (feedAll [[104], [105]]) [1, 5] = [104, 105] ∧
    readBlocks sampleStarted 7 [1, 5] = [104, 105] :=
  c3_sink_round_trip [[104], [105]] [1, 5] sampleStarted sampleSession 7
    (by decide) (by decide) (by decide) (by decide)

/-- find? returns the first element satisfying the predicate. -/
theorem find?_first {α : Type} (f : α → Bool) (pre : List α) (p : α)
    (post : List α) (hpre : ∀ q ∈ pre, f q = false) (hp : f p = true) :
    (pre ++ p :: post).find? f = some p := by
  induction pre with
  | nil => simpa using List.find?_cons_of_pos post hp
  | cons a l ih =>
    have ha : f a = false := hpre a (List.mem_cons_self a l)
    rw [List.cons_append, List.find?_cons_of_neg _ (by simp [ha])]
    exact ih (fun q hq => hpre q (List.mem_cons_of_mem a hq))

/-- C5: obtainRedirectedLocation fails InvalidArgument with no session,
leaving the out-parameter untouched; fails InvalidArgument when no
accumulated header name equals location case-insensitively; and otherwise
parses the value of the first matching header into a URI reference, writes it
to the out-parameter and returns success. The write goes through
Uri::operator=, which copies only the parsed part d_ptr: the out Uri carries
the parse of the header value, while its uri_string member — what getString
reports — keeps the value the caller's Uri held before the call. -/
theorem c5_obtainRedirectedLocation (parse : String → Option NeUri)
    (req : StandaloneCurlRequest) (out0 : Uri) :
    (req.session = none →
      obtainRedirectedLocation parse req out0 =
        (⟨StatusCode.InvalidArgument,
           "Request not active, impossible to obtain redirected location"⟩,
         out0)) ∧
    (∀ sess, req.session = some sess →
      (∀ q ∈ req.response_headers, strCaseEq "location" q.1 = false) →
      obtainRedirectedLocation parse req out0 =
        (⟨StatusCode.InvalidArgument,
           "Could not find Location header in answer headers"⟩, out0)) ∧
    (∀ sess pre p post, req.session = some sess →
      req.response_headers = pre ++ p :: post →
      (∀ q ∈ pre, strCaseEq "location" q.1 = false) →
      strCaseEq "location" p.1 = true →
      obtainRedirectedLocation parse req out0 =
        (Status.okS, Uri.assign out0 (Uri.fromString (parse p.2) p.2)) ∧
      ((obtainRedirectedLocation parse req out0).2).d_ptr =
        UriPrivate.parsing (parse p.2) ∧
      ((obtainRedirectedLocation parse req out0).2).getString =
        out0.getString) := by
  refine ⟨?_, ?_, ?_⟩
  · intro h
    simp [obtainRedirectedLocation, h]
  · intro sess hs hnone
    have hf : req.response_headers.find? (fun q => strCaseEq "location" q.1) =
        none := by
      rw [List.find?_eq_none]
      intro x hx
      simp [hnone x hx]
    simp [obtainRedirectedLocation, hs, hf]
  · intro sess pre p post hs hh hpre hp
    have hf : req.response_headers.find? (fun q => strCaseEq "location" q.1) =
        some p := by
      rw [hh]
      exact find?_first _ pre p post hpre hp
    have hmain : obtainRedirectedLocation parse req out0 =
        (Status.okS, Uri.assign out0 (Uri.fromString (parse p.2) p.2)) := by
      simp [obtainRedirectedLocation, hs, hf]
    exact ⟨hmain, by rw [hmain]; rfl, by rw [hmain]; rfl⟩

/-- Witness for C5: the mixed-case LoCaTiOn header, preceded by an unrelated
header, is the one picked; the out Uri takes its parsed part from the header
value while keeping the string it held before the call. -/
theorem c5_obtainRedirectedLocation_witness :
    obtainRedirectedLocation (fun _ => none) sampleRedirected sampleOutUri =
      (Status.okS, ⟨"http://orig/", UriPrivate.init⟩) :=
  ((c5_obtainRedirectedLocation (fun _ => none) sampleRedirected
      sampleOutUri).2.2
    sampleSession [("Content-Type", "text/plain")] ("LoCaTiOn", "http://x/a")
    [("Location", "http://y/b")] (by decide) (by decide) (by decide)
    (by decide)).1

/-- C7: on a request holding a session, readBlock with max_size 0 returns 0
with the success status untouched, for every clock value and deadline — the
deadline guard is never consulted; with max_size nonzero and an elapsed
deadline it fails OperationTimeout and removes no bytes from the sink. -/
theorem c7_readBlock_zero_and_timeout (req : StandaloneCurlRequest)
    (sess : CurlSession) (now d max_size : Nat) :
    (req.session = some sess →
      readBlock req 0 Status.okS now = ⟨0, [], Status.okS, req⟩) ∧
    (req.session = some sess → max_size ≠ 0 →
      req.deadline = some d → d < now →
      readBlock req max_size Status.okS now =
        ⟨-1, [],
          ⟨StatusCode.OperationTimeout,
            "timeout of " ++ toString req.operation_timeout_sec ++ "s"⟩,
          req⟩) := by
  constructor
  · intro hs
    exact readBlock_zero req sess Status.okS now hs
  · intro hs hm hd hlt
    have hct : checkTimeout req now =
        ⟨StatusCode.OperationTimeout,
          "timeout of " ++ toString req.operation_timeout_sec ++ "s"⟩ := by
      simp [checkTimeout, hd, hlt]
    simp [readBlock, hs, hm, hct, Status.ok]

/-- Witness for C7: a zero-size read at an arbitrary tick, and a nonzero read
past the deadline. -/
theorem c7_readBlock_zero_and_timeout_witness :
    readBlock sampleStarted 0 Status.okS 99 = ⟨0, [], Status.okS, sampleStarted⟩ ∧
    readBlock sampleRedirected 2 Status.okS 11 =
      ⟨-1, [], ⟨StatusCode.OperationTimeout, "timeout of 5s"⟩,
        sampleRedirected⟩ :=
  ⟨(c7_readBlock_zero_and_timeout sampleStarted sampleSession 99 0 0).1
      (by decide),
   (c7_readBlock_zero_and_timeout sampleRedirected sampleSession 11 10 2).2
      (by decide) (by decide) (by decide) (by decide)⟩

/-- C8 counterexample: the response header sequence is not frozen once the
terminator sentinel has been observed — on a concrete request, feeding the
bare CRLF line sets the received-headers flag, yet a further header line
still appends a pair to the sequence. -/
theorem c8_counterexample :
    (feedResponseHeader sampleFresh "\r\n").received_headers = true ∧
    (feedResponseHeader (feedResponseHeader sampleFresh "\r\n")
        "X-Custom: y\r\n").response_headers = [("X-Custom", "y")] := by
  exact ⟨rfl, by decide⟩

/-- C8 (amended): the terminator-only CRLF line is never passed to the header
line parser and only sets the header-terminated flag; every other line
appends exactly one parsed pair at the tail of the sequence (append-only) —
but the sequence is not frozen: this holds even for lines fed after the
terminator has been observed. -/
theorem c8_feedResponseHeader (req : StandaloneCurlRequest) (header : String) :
    feedResponseHeader req "\r\n" = { req with received_headers := true } ∧
    (header ≠ "\r\n" → feedResponseHeader req header =
      { req with response_headers :=
          req.response_headers ++ [HeaderlineParser.parse header] }) := by
  constructor
  · simp [feedResponseHeader]
  · intro h
    simp [feedResponseHeader, h]

/-- Witness for C8 at the spec example header line. -/
theorem c8_feedResponseHeader_witness :
    feedResponseHeader sampleFresh "Content-Type: text/plain\r\n" =
      { sampleFresh with response_headers :=
          [("Content-Type", "text/plain")] } :=
  (c8_feedResponseHeader sampleFresh "Content-Type: text/plain\r\n").2
    (by decide)

/-- C9: endRequest clears neither the session handle nor the sink, so after
finishing a started request a readBlock with nonzero max_size and a passing
deadline guard still succeeds, returning the buffered body bytes, and its
status is the same as before endRequest — the AlreadyRunning-kind error
depends only on the session handle, not on the state field. -/
theorem c9_readBlock_after_endRequest (req : StandaloneCurlRequest)
    (sess : CurlSession) (stIn : Status) (now max_size : Nat)
    (hs : req.session = some sess)
    (hct : checkTimeout req now = Status.okS) (hm : max_size ≠ 0) :
    readBlock (endRequest req).2 max_size stIn now =
      ⟨((req.response_buffer.take max_size).length : Int),
        req.response_buffer.take max_size, Status.okS,
        { req with state := RequestState.kFinished,
                   response_buffer := req.response_buffer.drop max_size }⟩ ∧
    (readBlock (endRequest req).2 max_size stIn now).st =
      (readBlock req max_size stIn now).st := by
  have hs2 : ((endRequest req).2).session = some sess := hs
  have hct2 : checkTimeout (endRequest req).2 now = Status.okS := hct
  have h1 := readBlock_some (endRequest req).2 sess stIn now max_size hs2 hm hct2
  have h2 := readBlock_some req sess stIn now max_size hs hm hct
  exact ⟨h1, by rw [h1, h2]⟩

/-- Witness for C9: a one-byte read after finishing the started request. -/
theorem c9_readBlock_after_endRequest_witness :
    readBlock (endRequest sampleStarted).2 1 Status.okS 0 =
      ⟨1, [104], Status.okS,
        { sampleStarted with state := RequestState.kFinished,
                             response_buffer := [105] }⟩ :=
  (c9_readBlock_after_endRequest sampleStarted sampleSession Status.okS 0 1
    (by decide) (by decide) (by decide)).1

/-- C10: a Uri built from a string whose parse failed (status not OK) yields
-1 from getPort, the empty string from getHost, getProtocol, getPath,
getPathAndQuery and getQuery, and the unchanged input from getString. -/
theorem c10_uri_failed_parse (pr : Option NeUri) (s : String)
    (h : (Uri.fromString pr s).getStatus ≠ StatusCode.OK) :
    (Uri.fromString pr s).getPort = -1 ∧
    (Uri.fromString pr s).getHost = "" ∧
    (Uri.fromString pr s).getProtocol = "" ∧
    (Uri.fromString pr s).getPath = "" ∧
    (Uri.fromString pr s).getPathAndQuery = "" ∧
    (Uri.fromString pr s).getQuery = "" ∧
    (Uri.fromString pr s).getString = s := by
  have hc : (Uri.fromString pr s).d_ptr.code ≠ StatusCode.OK := h
  refine ⟨?_, ?_, ?_, ?_, ?_, ?_, rfl⟩ <;>
    simp [Uri.getPort, Uri.getHost, Uri.getProtocol, Uri.getPath,
      Uri.getPathAndQuery, Uri.getQuery, hc]

/-- Witness for C10 at a whole-parse failure on an ill-formed input. -/
theorem c10_uri_failed_parse_witness :
    (Uri.fromString none "://").getPort = -1 ∧
    (Uri.fromString none "://").getHost = "" ∧
    (Uri.fromString none "://").getProtocol = "" ∧
    (Uri.fromString none "://").getPath = "" ∧
    (Uri.fromString none "://").getPathAndQuery = "" ∧
    (Uri.fromString none "://").getQuery = "" ∧
    (Uri.fromString none "://").getString = "://" :=
  c10_uri_failed_parse none "://" (by decide)
